import Mathlib

/-!
Verification of the RBAC permission model and the session lifecycle service
of the influencerium backend, as a shallow embedding in Lean 4.

The embedding covers:
* `src/middleware/rbac.js` — permission catalog, role hierarchy, decision
  functions (pure, modelled directly as Lean functions on `String`);
* `src/services/session.js` (session half of `passwordReset.js` in the
  flattened layout) — session store operations, modelled as pure functions
  over an explicit store (a list of session rows plus a list of user rows),
  with SQL `UPDATE ... WHERE` semantics modelled as a filtered map and
  `rowCount` as the number of matched rows, and the current clock passed
  explicitly as a `Nat` (milliseconds);
* `requireMinRole` from the authorization middleware adapters.
-/

namespace Rbac

/-- Permission list for the role `user`: a literal array of PERMISSIONS
members (rbac.js 52-65), involving no helper-const read. -/
def userPermissions : List String :=
  ["user:read", "user:update",
   "influencer:read", "influencer:create", "influencer:update",
   "campaign:read", "campaign:create", "campaign:update",
   "model:read", "model:create", "model:update",
   "analytics:read"]

/-- The full permission catalog, in `Object.values(PERMISSIONS)` order (rbac.js 15-48). -/
def allPermissions : List String :=
  ["user:read", "user:update", "user:delete", "user:manage",
   "influencer:read", "influencer:create", "influencer:update", "influencer:delete",
   "campaign:read", "campaign:create", "campaign:update", "campaign:delete",
   "model:read", "model:create", "model:update", "model:delete",
   "analytics:read", "analytics:export",
   "admin:access", "system:config", "role:manage"]

/-- Permission list for `super_admin`: `Object.values(PERMISSIONS)` (rbac.js 81). -/
def superAdminPermissions : List String := allPermissions

/-- The four known roles, in `Object.values(ROLES)` order (`getAvailableRoles`). -/
def availableRoles : List String := ["user", "moderator", "admin", "super_admin"]

/-- The list the moderator entry of ROLE_PERMISSIONS (rbac.js 67-73) denotes
once `ROLES_USER_PERMISSIONS` is bound: the intended, crash-free construction.
At actual module load that spread read throws — the const it reads is declared
only at rbac.js 85, after the table; see `evalRolePermissionsTable`. -/
def intendedModeratorPermissions : List String :=
  userPermissions ++
  ["influencer:delete", "campaign:delete", "model:delete", "analytics:export"]

/-- The list the admin entry of ROLE_PERMISSIONS (rbac.js 75-79) denotes once
`ROLES_MODERATOR_PERMISSIONS` (declared only at rbac.js 86) is bound. -/
def intendedAdminPermissions : List String :=
  intendedModeratorPermissions ++ ["user:manage", "admin:access"]

/-- Evaluation of the ROLE_PERMISSIONS object literal (rbac.js 51-82) in a
module scope where the two helper consts hold the given binding states:
`none` means the const is still in its temporal dead zone, so the spread read
throws a ReferenceError and aborts the whole initializer; `some l` means the
const is bound to `l`. Entries are evaluated in source order: the user entry
is a literal; the moderator entry spreads `ROLES_USER_PERMISSIONS` (line 68);
the admin entry spreads `ROLES_MODERATOR_PERMISSIONS` (line 76); the
super_admin entry is `Object.values(PERMISSIONS)`. -/
def evalRolePermissionsTable (userConst moderatorConst : Option (List String)) :
    Option (List (String × List String)) := do
  let userEntry := userPermissions
  let userSpread ← userConst
  let moderatorEntry := userSpread ++
    ["influencer:delete", "campaign:delete", "model:delete", "analytics:export"]
  let moderatorSpread ← moderatorConst
  let adminEntry := moderatorSpread ++ ["user:manage", "admin:access"]
  some [("user", userEntry), ("moderator", moderatorEntry),
        ("admin", adminEntry), ("super_admin", superAdminPermissions)]

/-- The table construction as it actually runs at `require` time: the helper
consts of rbac.js 85-86 are hoisted but still uninitialized when the object
literal of lines 51-82 is evaluated, so the construction aborts with a
ReferenceError and no table is ever produced. -/
def rolePermissionsTableAtLoad : Option (List (String × List String)) :=
  evalRolePermissionsTable none none

/-- Own property names of `Object.prototype`: a lookup of one of these keys on
a plain object literal that lacks the key itself finds the inherited member (a
function, or the prototype object for `__proto__`) instead of undefined. All
of these members are truthy, so a `|| fallback` never replaces them. -/
def objectPrototypeKeys : List String :=
  ["constructor", "hasOwnProperty", "isPrototypeOf", "propertyIsEnumerable",
   "toLocaleString", "toString", "valueOf", "__proto__",
   "__defineGetter__", "__defineSetter__", "__lookupGetter__", "__lookupSetter__"]

/-- Result of `ROLE_PERMISSIONS[role] || []`: an own key yields its permission
array; a key inherited from `Object.prototype` yields the inherited truthy
non-array member; a genuinely absent key yields undefined, which `|| []`
replaces with the empty array. -/
inductive TableRead where
  | array (perms : List String)
  | protoMember (key : String)
deriving Repr, DecidableEq

/-- Embeds `getRolePermissions(role) = ROLE_PERMISSIONS[role] || []`
(rbac.js 92-94) with JavaScript property-lookup semantics. The own entries
hold the lists the initializer denotes (the construction itself throws at
module load, see `rolePermissionsTableAtLoad`); `Object.prototype` keys are
found on the prototype chain and, being truthy, survive the `|| []`; any other
key gives undefined and the fallback empty array. -/
def getRolePermissions (role : String) : TableRead :=
  if role = "user" then .array userPermissions
  else if role = "moderator" then .array intendedModeratorPermissions
  else if role = "admin" then .array intendedAdminPermissions
  else if role = "super_admin" then .array superAdminPermissions
  else if role ∈ objectPrototypeKeys then .protoMember role
  else .array []

/-- Calling `.includes(p)` on a table read: an array answers the membership
test; an inherited non-array member has no `includes` method, so the call
throws a TypeError, modelled as `none`. -/
def tableReadIncludes (t : TableRead) (p : String) : Option Bool :=
  match t with
  | .array perms => some (perms.contains p)
  | .protoMember _ => none

/-- Embeds `roleHasPermission` (rbac.js 99-102): `permissions.includes(...)`
on the looked-up value; throws for `Object.prototype` keys. -/
def roleHasPermission (role permission : String) : Option Bool :=
  tableReadIncludes (getRolePermissions role) permission

/-- A user record as consumed by the RBAC decision functions: only the `role`
field is read. JavaScript truthiness of `user.role` makes the empty string
behave like an absent role. -/
structure User where
  role : String
deriving Repr, DecidableEq

/-- Embeds `userHasPermission` (rbac.js 107-111): `!user || !user.role` yields
false, otherwise `.includes` runs on the looked-up value. -/
def userHasPermission (user : Option User) (permission : String) : Option Bool :=
  match user with
  | none => some false
  | some u =>
      if u.role = "" then some false
      else tableReadIncludes (getRolePermissions u.role) permission

/-- Embeds `userHasAnyPermission` (rbac.js 116-120): `permissionList.some(cb)`
runs the callback left to right and short-circuits; on the empty list the
callback never runs, so the result is false even for a role whose lookup is
not an array. -/
def userHasAnyPermission (user : Option User) (permissionList : List String) : Option Bool :=
  match user with
  | none => some false
  | some u =>
      if u.role = "" then some false
      else permissionList.anyM (fun p => tableReadIncludes (getRolePermissions u.role) p)

/-- Embeds `userHasAllPermissions` (rbac.js 125-129): `permissionList.every(cb)`
with the same short-circuit behaviour; on the empty list the result is true
with the callback never invoked. -/
def userHasAllPermissions (user : Option User) (permissionList : List String) : Option Bool :=
  match user with
  | none => some false
  | some u =>
      if u.role = "" then some false
      else permissionList.allM (fun p => tableReadIncludes (getRolePermissions u.role) p)

/-- Embeds `isValidRole` (rbac.js 141-143). -/
def isValidRole (role : String) : Bool :=
  availableRoles.contains role

/-- Result of `ROLE_HIERARCHY[role] || 0` (rbac.js 148-153 and the `|| 0`
defaults at 159-160): own keys give the numeric level; `Object.prototype` keys
give the inherited truthy member, which the `|| 0` keeps; absent keys give
undefined, replaced by 0. -/
inductive HierRead where
  | num (level : Nat)
  | protoMember (key : String)
deriving Repr, DecidableEq

/-- The hierarchy lookup `ROLE_HIERARCHY[role] || 0`: user 1, moderator 2,
admin 3, super_admin 4, an inherited member for `Object.prototype` keys, 0
for anything else. -/
def roleHierarchyLevelRead (role : String) : HierRead :=
  if role = "user" then .num 1
  else if role = "moderator" then .num 2
  else if role = "admin" then .num 3
  else if role = "super_admin" then .num 4
  else if role ∈ objectPrototypeKeys then .protoMember role
  else .num 0

/-- Embeds `isRoleHigherOrEqual` (rbac.js 158-162): `level1 >= level2`. A
JavaScript `>=` coerces a non-numeric operand (an inherited function or
object) through ToNumber to NaN, and every comparison involving NaN is
false. -/
def isRoleHigherOrEqual (role1 role2 : String) : Bool :=
  match roleHierarchyLevelRead role1, roleHierarchyLevelRead role2 with
  | .num l1, .num l2 => l1 ≥ l2
  | _, _ => false

/-- Embeds the admission decision of `requireMinRole` (auth-middleware routes
file, lines 617-637): admitted iff
`(ROLE_HIERARCHY[userRole] || 0) >= (ROLE_HIERARCHY[minimumRole] || 0)`, with
the same NaN semantics as `isRoleHigherOrEqual`. -/
def requireMinRoleAllows (minimumRole userRole : String) : Bool :=
  match roleHierarchyLevelRead minimumRole, roleHierarchyLevelRead userRole with
  | .num minLevel, .num userLevel => userLevel ≥ minLevel
  | _, _ => false

/-- Boolean subset test on permission lists viewed as sets. -/
def permSubset (a b : List String) : Bool :=
  a.all (fun p => b.contains p)

/-- Boolean strict-superset test on permission lists viewed as sets. -/
def permStrictSuperset (a b : List String) : Bool :=
  permSubset b a && !(permSubset a b)

end Rbac

namespace SessionService

/-- One row of the `sessions` table (migrations.js 52-64). Timestamps are
milliseconds since the epoch as `Nat`; nullable columns are `Option`. -/
structure Session where
  id : String
  user_id : String
  session_token : String
  ip_address : Option String
  user_agent : Option String
  device_info : Option String
  status : String
  created_at : Nat
  last_active_at : Nat
  expires_at : Nat
  revoked_at : Option Nat
deriving Repr, DecidableEq

/-- One row of the `users` table, with the columns the session join selects. -/
structure UserRow where
  id : String
  name : String
  email : String
  role : String
  status : String
deriving Repr, DecidableEq

/-- The persistent store visible to the session service: the `sessions` table
and the `users` table it joins against. -/
structure Store where
  sessions : List Session
  users : List UserRow
deriving Repr, DecidableEq

/-- SQL semantics of `UPDATE sessions SET ... WHERE p`: every matching row is
rewritten by `f`, the others are untouched. -/
def sqlUpdate (p : Session → Bool) (f : Session → Session) (rows : List Session) : List Session :=
  rows.map (fun s => if p s then f s else s)

/-- SQL semantics of `rowCount` for an `UPDATE ... WHERE p`: the number of rows
the predicate matched. -/
def sqlRowCount (p : Session → Bool) (rows : List Session) : Nat :=
  (rows.filter p).length

/-- Default session lifetime: `config.session.cookie_max_age || 604800000`
(7 days in milliseconds). -/
def sessionLifetime : Nat := 604800000

/-- Lowercase hex digit for a value below 16, as `Buffer.toString` produces. -/
def hexDigit (n : Nat) : Char :=
  if n < 10 then Char.ofNat (48 + n) else Char.ofNat (87 + n)

/-- Two lowercase hex characters encoding one byte. -/
def byteToHex (b : Nat) : List Char :=
  [hexDigit (b / 16), hexDigit (b % 16)]

/-- Embeds `crypto.randomBytes(64).toString(hex)` from `generateSessionToken`
(session service 208-210): the 64 random bytes are passed explicitly and each is
encoded as two lowercase hex characters. -/
def generateSessionToken (randomBytes : List Nat) : String :=
  String.mk ((randomBytes.map byteToHex).flatten)

/-- Embeds `createSession` (session service 215-234): inserts a row whose
`status` takes the column default `active` (migrations.js 59), with
`expires_at = now + lifetime`, `created_at` and `last_active_at` defaulting to
`NOW()`, and returns the inserted row. The freshly generated id and token are
passed explicitly. -/
def createSession (store : Store) (userId newId token : String) (now : Nat)
    (ip userAgent deviceInfo : Option String) : Store × Session :=
  let s : Session :=
    { id := newId, user_id := userId, session_token := token,
      ip_address := ip, user_agent := userAgent, device_info := deviceInfo,
      status := "active", created_at := now, last_active_at := now,
      expires_at := now + sessionLifetime, revoked_at := none }
  ({ store with sessions := store.sessions ++ [s] }, s)

/-- Embeds `validateSession` (session service 239-255) exactly as written: the
query text is
`WHERE s.session_token = $1 AND s.status = $1 AND s.expires_at > NOW()` with the
single parameter `[token]`, so BOTH placeholders receive the token — the row's
`status` is compared against the token, not against the literal `active`.
The join `JOIN users u ON s.user_id = u.id` requires an owning user row. -/
def validateSession (store : Store) (token : String) (now : Nat) : Option Session :=
  if token = "" then none
  else
    (store.sessions.filter (fun s =>
      s.session_token == token && s.status == token && decide (now < s.expires_at) &&
      store.users.any (fun u => u.id == s.user_id))).head?

/-- Embeds the token masking of `getUserSessions` (session service 294):
`substring(0, 8) + "..." + substring(length - 8)`, computed on the character
sequence of the token. Natural subtraction mirrors the clamping of a negative
`substring` argument to 0. -/
def maskToken (t : String) : String :=
  String.mk (t.data.take 8 ++ ['.', '.', '.'] ++ t.data.drop (t.data.length - 8))

/-- The paginated envelope `getUserSessions` returns. -/
structure SessionPage where
  sessions : List Session
  page : Nat
  limit : Nat
  total : Nat
  pages : Nat
deriving Repr, DecidableEq

/-- Embeds `getUserSessions` (session service 260-307): filter by `user_id`,
and by `status` unless it is `all`; count the matches; order by
`last_active_at DESC`; page with `LIMIT limit OFFSET (page-1)*limit`; mask every
returned `session_token`; `pages = ceil(total/limit)`. -/
def getUserSessions (store : Store) (userId status : String) (page limit : Nat) : SessionPage :=
  let base := store.sessions.filter (fun s => s.user_id == userId)
  let filtered := if status == "all" then base else base.filter (fun s => s.status == status)
  let total := filtered.length
  let sorted := filtered.insertionSort (fun a b => b.last_active_at ≤ a.last_active_at)
  let pageRows := (sorted.drop ((page - 1) * limit)).take limit
  let masked := pageRows.map (fun s => { s with session_token := maskToken s.session_token })
  { sessions := masked, page := page, limit := limit, total := total,
    pages := (total + limit - 1) / limit }

/-- Embeds `getSessionById` (session service 312-321): a scoped lookup by `id`
and `user_id` returning the stored row itself (note: no masking is applied on
this path in the source). -/
def getSessionById (store : Store) (sessionId userId : String) : Option Session :=
  (store.sessions.filter (fun s => s.id == sessionId && s.user_id == userId)).head?

/-- Embeds `updateSessionActivity` (session service 326-331). -/
def updateSessionActivity (store : Store) (sessionId : String) (now : Nat) : Store :=
  let rows := sqlUpdate (fun s => s.id == sessionId)
    (fun s => { s with last_active_at := now }) store.sessions
  { store with sessions := rows }

/-- Row rewrite shared by the revoke operations:
`SET status = revoked, revoked_at = NOW()`. -/
def revokeMark (now : Nat) (s : Session) : Session :=
  { s with status := "revoked", revoked_at := some now }

/-- Embeds `revokeSession` (session service 336-345): the `WHERE` clause matches
on `id` and `user_id` only — the source places NO condition on the current
`status` — and the boolean result is `rowCount > 0`. -/
def revokeSession (store : Store) (sessionId userId : String) (now : Nat) : Store × Bool :=
  let p := fun (s : Session) => s.id == sessionId && s.user_id == userId
  ({ store with sessions := sqlUpdate p (revokeMark now) store.sessions },
   decide (0 < sqlRowCount p store.sessions))

/-- Embeds `revokeAllSessions` (session service 350-361): matches the user's
rows whose `status` is `active`, minus the excluded id when one is given, and
returns the row count. -/
def revokeAllSessions (store : Store) (userId : String) (excludeSessionId : Option String)
    (now : Nat) : Store × Nat :=
  let p := fun (s : Session) =>
    s.user_id == userId && s.status == "active" &&
      (match excludeSessionId with
       | none => true
       | some e => s.id != e)
  ({ store with sessions := sqlUpdate p (revokeMark now) store.sessions },
   sqlRowCount p store.sessions)

/-- Embeds `revokeSessionsByType` (session service 366-374): matches on
`user_id`, `device_info` and `status = active`. -/
def revokeSessionsByType (store : Store) (userId deviceType : String) (now : Nat) : Store × Nat :=
  let p := fun (s : Session) =>
    s.user_id == userId && s.device_info == some deviceType && s.status == "active"
  ({ store with sessions := sqlUpdate p (revokeMark now) store.sessions },
   sqlRowCount p store.sessions)

/-- Embeds `cleanupExpiredSessions` (session service 379-386):
`SET status = expired WHERE status = active AND expires_at < NOW()`. -/
def cleanupExpiredSessions (store : Store) (now : Nat) : Store × Nat :=
  let p := fun (s : Session) => s.status == "active" && decide (s.expires_at < now)
  ({ store with sessions := sqlUpdate p (fun s => { s with status := "expired" }) store.sessions },
   sqlRowCount p store.sessions)

/-- Embeds `countActiveSessions` (session service 391-399):
`COUNT(*) WHERE user_id = $1 AND status = active AND expires_at > NOW()`. -/
def countActiveSessions (store : Store) (userId : String) (now : Nat) : Nat :=
  (store.sessions.filter (fun s =>
    s.user_id == userId && s.status == "active" && decide (now < s.expires_at))).length

/-- One session-store operation, for reasoning about status transitions over
arbitrary operation sequences. -/
inductive Op where
  | create (userId newId token : String) (now : Nat) (ip ua di : Option String)
  | revoke (sessionId userId : String) (now : Nat)
  | revokeAll (userId : String) (excludeSessionId : Option String) (now : Nat)
  | revokeByType (userId deviceType : String) (now : Nat)
  | cleanup (now : Nat)
  | touch (sessionId : String) (now : Nat)
deriving Repr, DecidableEq

/-- Effect of one operation on the store, ignoring the returned values. -/
def applyOp (store : Store) : Op → Store
  | .create uid nid tok now ip ua di => (createSession store uid nid tok now ip ua di).1
  | .revoke sid uid now => (revokeSession store sid uid now).1
  | .revokeAll uid ex now => (revokeAllSessions store uid ex now).1
  | .revokeByType uid dt now => (revokeSessionsByType store uid dt now).1
  | .cleanup now => (cleanupExpiredSessions store now).1
  | .touch sid now => updateSessionActivity store sid now

/-- The sixteen lowercase hexadecimal characters. -/
def lowercaseHexChars : List Char := "0123456789abcdef".data

/-- A concrete 128-character token: the hex encoding of 64 bytes of value 170. -/
def demoToken : String := generateSessionToken (List.replicate 64 170)

/-- A concrete active user row owning the demo sessions. -/
def demoUser : UserRow :=
  { id := "u1", name := "User One", email := "u1@example.com", role := "user", status := "active" }

/-- A store holding the demo user and no sessions. -/
def demoBaseStore : Store := { sessions := [], users := [demoUser] }

/-- The store right after `createSession` for the demo user at time 1000 with
the demo token. -/
def demoCreatedStore : Store :=
  (createSession demoBaseStore "u1" "s1" demoToken 1000 none none none).1

/-- A concrete session that is already revoked (revoked at time 10). -/
def revokedSession : Session :=
  { id := "s1", user_id := "u1", session_token := demoToken,
    ip_address := none, user_agent := none, device_info := none,
    status := "revoked", created_at := 0, last_active_at := 0,
    expires_at := 604800000, revoked_at := some 10 }

/-- A store holding only the already-revoked session. -/
def revokedStore : Store := { sessions := [revokedSession], users := [demoUser] }

/-- A concrete session that is already expired (batch-expired by cleanup). -/
def expiredSession : Session :=
  { id := "s1", user_id := "u1", session_token := demoToken,
    ip_address := none, user_agent := none, device_info := none,
    status := "expired", created_at := 0, last_active_at := 0,
    expires_at := 500, revoked_at := none }

/-- A store holding only the already-expired session. -/
def expiredStore : Store := { sessions := [expiredSession], users := [demoUser] }

end SessionService

namespace Rbac

/-- A role string that is not an Object.prototype property name reads a
numeric hierarchy level (an own level or the fallback 0). -/
theorem hierRead_num_of_not_proto (role : String) (h : role ∉ objectPrototypeKeys) :
    ∃ l, roleHierarchyLevelRead role = HierRead.num l := by
  by_cases h1 : role = "user"
  · exact ⟨1, by simp [roleHierarchyLevelRead, h1]⟩
  · by_cases h2 : role = "moderator"
    · exact ⟨2, by simp [roleHierarchyLevelRead, h1, h2]⟩
    · by_cases h3 : role = "admin"
      · exact ⟨3, by simp [roleHierarchyLevelRead, h1, h2, h3]⟩
      · by_cases h4 : role = "super_admin"
        · exact ⟨4, by simp [roleHierarchyLevelRead, h1, h2, h3, h4]⟩
        · exact ⟨0, by simp [roleHierarchyLevelRead, h1, h2, h3, h4, h]⟩

/-- A role string outside the four known roles that is not an Object.prototype
property name falls through to the `|| 0` fallback. -/
theorem hierRead_zero_of_unknown (role : String) (h1 : role ∉ availableRoles)
    (h2 : role ∉ objectPrototypeKeys) :
    roleHierarchyLevelRead role = HierRead.num 0 := by
  simp [availableRoles] at h1
  obtain ⟨e1, e2, e3, e4⟩ := h1
  simp [roleHierarchyLevelRead, e1, e2, e3, e4, h2]

/-- A role string outside the four known roles that is not an Object.prototype
property name falls through to the `|| []` fallback. -/
theorem permsRead_empty_of_unknown (role : String) (h1 : role ∉ availableRoles)
    (h2 : role ∉ objectPrototypeKeys) :
    getRolePermissions role = TableRead.array [] := by
  simp [availableRoles] at h1
  obtain ⟨e1, e2, e3, e4⟩ := h1
  simp [getRolePermissions, e1, e2, e3, e4, h2]

/-- An Object.prototype property name reads the inherited member from the
hierarchy table. -/
theorem hierRead_proto (role : String) (h : role ∈ objectPrototypeKeys) :
    roleHierarchyLevelRead role = HierRead.protoMember role := by
  fin_cases h <;> decide

/-- An Object.prototype property name reads the inherited member from the
permission table. -/
theorem permsRead_proto (role : String) (h : role ∈ objectPrototypeKeys) :
    getRolePermissions role = TableRead.protoMember role := by
  fin_cases h <;> decide

end Rbac

/-- C2 (code bug, demonstrated at the failing input): requiring rbac.js
evaluates the ROLE_PERMISSIONS initializer while the helper consts it spreads
(declared at lines 85-86, after the table) are still in the temporal dead
zone, so the construction aborts with a ReferenceError and no permission set
is ever built — the strict-superset chain the claim asserts can never be
computed by the loaded module. The chain itself is the intent: for the table
the initializer denotes once the consts are bound (the minimal
declaration-order fix), each known role's set is a strict superset of the next
lower role's. -/
theorem claim_C2_role_permissions_table_init_throws :
    Rbac.rolePermissionsTableAtLoad = none ∧
    Rbac.evalRolePermissionsTable (some Rbac.userPermissions)
      (some Rbac.intendedModeratorPermissions) =
      some [("user", Rbac.userPermissions),
            ("moderator", Rbac.intendedModeratorPermissions),
            ("admin", Rbac.intendedAdminPermissions),
            ("super_admin", Rbac.superAdminPermissions)] ∧
    (Rbac.permStrictSuperset Rbac.superAdminPermissions Rbac.intendedAdminPermissions &&
     Rbac.permStrictSuperset Rbac.intendedAdminPermissions Rbac.intendedModeratorPermissions &&
     Rbac.permStrictSuperset Rbac.intendedModeratorPermissions Rbac.userPermissions) = true := by
  decide

/-- C6: for every present user with a (truthy) role field, the all-quantified
check over an empty permission list returns true while the any-quantified
check returns false — the empty list never invokes the callback, so neither
call can throw — and the two operations disagree on the empty list. -/
theorem claim_C6_empty_list_asymmetry :
    ∀ u : Rbac.User, u.role ≠ "" →
    Rbac.userHasAllPermissions (some u) [] = some true ∧
    Rbac.userHasAnyPermission (some u) [] = some false ∧
    Rbac.userHasAllPermissions (some u) [] ≠ Rbac.userHasAnyPermission (some u) [] := by
  intro u h
  refine ⟨?_, ?_, ?_⟩ <;>
    simp [Rbac.userHasAllPermissions, Rbac.userHasAnyPermission, h, List.allM, List.anyM]

/-- Witness for C6 at a concrete user of role user. -/
theorem claim_C6_empty_list_asymmetry_witness :
    Rbac.userHasAllPermissions (some ⟨"user"⟩) [] = some true ∧
    Rbac.userHasAnyPermission (some ⟨"user"⟩) [] = some false ∧
    Rbac.userHasAllPermissions (some ⟨"user"⟩) [] ≠ Rbac.userHasAnyPermission (some ⟨"user"⟩) [] :=
  claim_C6_empty_list_asymmetry ⟨"user"⟩ (by decide)

/-- C7 (counterexample): the role string constructor lies outside the four
known roles, yet the prototype-chain lookup finds the inherited Object
constructor — truthy, so the `|| []` and `|| 0` fallbacks never fire: the
permission read is not the empty array, the hierarchy read is not the number
0, and roleHasPermission throws a TypeError calling `.includes` on a function
(modelled as none), contradicting every part of the claim. -/
theorem claim_C7_proto_key_counterexample :
    ("constructor" ∉ Rbac.availableRoles) ∧
    Rbac.getRolePermissions "constructor" = Rbac.TableRead.protoMember "constructor" ∧
    Rbac.getRolePermissions "constructor" ≠ Rbac.TableRead.array [] ∧
    Rbac.roleHierarchyLevelRead "constructor" ≠ Rbac.HierRead.num 0 ∧
    Rbac.roleHasPermission "constructor" "user:read" = none := by
  decide

/-- C7 (amended): for every role string outside the four known roles that is
also not an Object.prototype property name, the permission lookup returns the
empty array, the hierarchy level is 0, and roleHasPermission answers false for
every permission without throwing; for an unknown role that IS an
Object.prototype property name, both lookups return the inherited truthy
member and roleHasPermission throws a TypeError. -/
theorem claim_C7_amended_unknown_role_fail_closed :
    (∀ role : String, role ∉ Rbac.availableRoles → role ∉ Rbac.objectPrototypeKeys →
      Rbac.getRolePermissions role = Rbac.TableRead.array [] ∧
      Rbac.roleHierarchyLevelRead role = Rbac.HierRead.num 0 ∧
      ∀ p : String, Rbac.roleHasPermission role p = some false) ∧
    (∀ role ∈ Rbac.objectPrototypeKeys,
      Rbac.getRolePermissions role = Rbac.TableRead.protoMember role ∧
      ∀ p : String, Rbac.roleHasPermission role p = none) := by
  constructor
  · intro role h1 h2
    have hg := Rbac.permsRead_empty_of_unknown role h1 h2
    refine ⟨hg, Rbac.hierRead_zero_of_unknown role h1 h2, ?_⟩
    intro p
    simp [Rbac.roleHasPermission, hg, Rbac.tableReadIncludes]
  · intro role h
    have hg := Rbac.permsRead_proto role h
    refine ⟨hg, ?_⟩
    intro p
    simp [Rbac.roleHasPermission, hg, Rbac.tableReadIncludes]

/-- Witness for the amended C7 at the concrete unknown role ghost and the
concrete Object.prototype key toString. -/
theorem claim_C7_amended_unknown_role_fail_closed_witness :
    Rbac.getRolePermissions "ghost" = Rbac.TableRead.array [] ∧
    Rbac.roleHasPermission "ghost" "user:read" = some false ∧
    Rbac.roleHasPermission "toString" "user:read" = none :=
  ⟨(claim_C7_amended_unknown_role_fail_closed.1 "ghost" (by decide) (by decide)).1,
   (claim_C7_amended_unknown_role_fail_closed.1 "ghost" (by decide) (by decide)).2.2 "user:read",
   (claim_C7_amended_unknown_role_fail_closed.2 "toString" (by decide)).2 "user:read"⟩

/-- C10 (counterexample): for the unknown pair (ghost, constructor) the
hierarchy read of constructor is the inherited Object constructor, which
coerces to NaN under `>=`, so isRoleHigherOrEqual returns false, not true; and
requireMinRole with minimumRole constructor denies even the highest role —
while a gate with the unknown minimum ghost still denies a user whose role is
the prototype key toString — contradicting both universally quantified parts
of the claim. -/
theorem claim_C10_proto_key_counterexample :
    ("ghost" ∉ Rbac.availableRoles) ∧
    ("constructor" ∉ Rbac.availableRoles) ∧
    ("toString" ∉ Rbac.availableRoles) ∧
    Rbac.isRoleHigherOrEqual "ghost" "constructor" = false ∧
    Rbac.requireMinRoleAllows "constructor" "user" = false ∧
    Rbac.requireMinRoleAllows "constructor" "super_admin" = false ∧
    Rbac.requireMinRoleAllows "ghost" "toString" = false := by
  decide

/-- C10 (amended): when both compared role strings are unknown and neither is
an Object.prototype property name, both hierarchy reads default to 0 and
isRoleHigherOrEqual returns true; requireMinRole with such an unknown minimum
role admits every user whose own role read is numeric (every string that is
not a prototype key); but when the minimum role is an Object.prototype
property name, the inherited member coerces to NaN and the gate denies every
user. -/
theorem claim_C10_amended_unknown_min_role :
    (∀ r1 r2 : String, r1 ∉ Rbac.availableRoles → r1 ∉ Rbac.objectPrototypeKeys →
      r2 ∉ Rbac.availableRoles → r2 ∉ Rbac.objectPrototypeKeys →
      Rbac.isRoleHigherOrEqual r1 r2 = true) ∧
    (∀ minimumRole userRole : String,
      minimumRole ∉ Rbac.availableRoles → minimumRole ∉ Rbac.objectPrototypeKeys →
      userRole ∉ Rbac.objectPrototypeKeys →
      Rbac.requireMinRoleAllows minimumRole userRole = true) ∧
    (∀ minimumRole userRole : String, minimumRole ∈ Rbac.objectPrototypeKeys →
      Rbac.requireMinRoleAllows minimumRole userRole = false) := by
  refine ⟨?_, ?_, ?_⟩
  · intro r1 r2 h1 h2 h3 h4
    simp [Rbac.isRoleHigherOrEqual, Rbac.hierRead_zero_of_unknown r1 h1 h2,
      Rbac.hierRead_zero_of_unknown r2 h3 h4]
  · intro minimumRole userRole h1 h2 h3
    obtain ⟨l, hl⟩ := Rbac.hierRead_num_of_not_proto userRole h3
    simp [Rbac.requireMinRoleAllows, Rbac.hierRead_zero_of_unknown minimumRole h1 h2, hl]
  · intro minimumRole userRole h
    cases hx : Rbac.roleHierarchyLevelRead userRole <;>
      simp [Rbac.requireMinRoleAllows, Rbac.hierRead_proto minimumRole h, hx]

/-- Witness for the amended C10 at concrete roles: two unknown non-prototype
roles compare true, the gate with unknown minimum ghost admits role user, and
the gate with minimum constructor denies role user. -/
theorem claim_C10_amended_unknown_min_role_witness :
    Rbac.isRoleHigherOrEqual "ghost" "phantom" = true ∧
    Rbac.requireMinRoleAllows "ghost" "user" = true ∧
    Rbac.requireMinRoleAllows "constructor" "user" = false :=
  ⟨claim_C10_amended_unknown_min_role.1 "ghost" "phantom"
      (by decide) (by decide) (by decide) (by decide),
   claim_C10_amended_unknown_min_role.2.1 "ghost" "user" (by decide) (by decide) (by decide),
   claim_C10_amended_unknown_min_role.2.2 "constructor" "user" (by decide)⟩

namespace SessionService

/-- Every nibble encodes to one of the sixteen lowercase hex characters. -/
theorem hexDigit_mem_of_lt : ∀ n < 16, hexDigit n ∈ lowercaseHexChars := by decide

/-- The hex encoding of a byte list is twice as long as the list. -/
theorem hex_length (bs : List Nat) : ((bs.map byteToHex).flatten).length = 2 * bs.length := by
  induction bs with
  | nil => rfl
  | cons b bs ih => simp only [List.map_cons, List.flatten_cons, List.length_append, ih,
      byteToHex, List.length_cons, List.length_nil]; omega

end SessionService

/-- C9: a generated session token built from 64 bytes (each below 256) is a
string of exactly 128 characters, all drawn from the lowercase hexadecimal
alphabet. -/
theorem claim_C9_token_is_128_lowercase_hex :
    ∀ bs : List Nat, bs.length = 64 → (∀ b ∈ bs, b < 256) →
    (SessionService.generateSessionToken bs).length = 128 ∧
    ∀ c ∈ (SessionService.generateSessionToken bs).data,
      c ∈ SessionService.lowercaseHexChars := by
  intro bs hlen hbytes
  constructor
  · show ((bs.map SessionService.byteToHex).flatten).length = 128
    rw [SessionService.hex_length, hlen]
  · intro c hc
    simp only [SessionService.generateSessionToken, String.data] at hc
    rw [List.mem_flatten] at hc
    obtain ⟨l, hl, hcl⟩ := hc
    rw [List.mem_map] at hl
    obtain ⟨b, hb, rfl⟩ := hl
    have hb256 := hbytes b hb
    simp only [SessionService.byteToHex, List.mem_cons, List.not_mem_nil, or_false] at hcl
    rcases hcl with rfl | rfl
    · exact SessionService.hexDigit_mem_of_lt (b / 16) (Nat.div_lt_of_lt_mul (by omega))
    · exact SessionService.hexDigit_mem_of_lt (b % 16) (Nat.mod_lt b (by omega))

/-- Witness for C9 at the concrete byte list of 64 zero bytes. -/
theorem claim_C9_token_is_128_lowercase_hex_witness :
    (SessionService.generateSessionToken (List.replicate 64 0)).length = 128 ∧
    SessionService.generateSessionToken (List.replicate 64 0) =
      String.mk (List.replicate 128 '0') :=
  ⟨(claim_C9_token_is_128_lowercase_hex (List.replicate 64 0) (by decide)
      (by intro b hb; simp [List.mem_replicate] at hb; omega)).1,
   by decide⟩

/-- C1 (code bug, demonstrated at the failing input): right after
`createSession` for the active demo user at time 1000 with a generated
128-character token, the stored session is `active` with its expiry in the
future and its owner present, yet `validateSession` on the very same token at
the very same time returns none — the query compares the `status` column
against `$1`, which holds the token, so the lookup can never match a real
session. The empty-token path does return none, as the claim states. -/
theorem claim_C1_roundtrip_validate_returns_none :
    (SessionService.createSession SessionService.demoBaseStore
        "u1" "s1" SessionService.demoToken 1000 none none none).2.status = "active" ∧
    1000 < (SessionService.createSession SessionService.demoBaseStore
        "u1" "s1" SessionService.demoToken 1000 none none none).2.expires_at ∧
    (SessionService.demoCreatedStore.users.map SessionService.UserRow.id) = ["u1"] ∧
    SessionService.validateSession SessionService.demoCreatedStore
      SessionService.demoToken 1000 = none ∧
    SessionService.validateSession SessionService.demoCreatedStore "" 1000 = none := by
  decide

/-- C3 (counterexample): the already-revoked session is owned by u1, so the
claim requires `revokeSession` to return false and change nothing; the code
matches on id and owner only, returns true, and re-stamps `revoked_at`. -/
theorem claim_C3_already_revoked_counterexample :
    SessionService.revokedSession.status = "revoked" ∧
    (SessionService.revokeSession SessionService.revokedStore "s1" "u1" 50).2 = true ∧
    (SessionService.revokeSession SessionService.revokedStore "s1" "u1" 50).1.sessions =
      [{ SessionService.revokedSession with revoked_at := some 50 }] := by
  decide

/-- C3 (amended): `revokeSession` returns true iff a session with the given id
owned by the given user exists, regardless of its current status; every
matching session — already revoked or expired included — ends up with status
revoked and a freshly stamped `revokedAt`, while non-matching sessions are left
exactly as they were (so it still returns false when the session is not found
or owned by a different user). -/
theorem claim_C3_amended_revoke_by_ownership_only :
    ∀ (store : SessionService.Store) (sid uid : String) (now : Nat),
    ((SessionService.revokeSession store sid uid now).2 = true ↔
      ∃ s ∈ store.sessions, s.id = sid ∧ s.user_id = uid) ∧
    (∀ s ∈ (SessionService.revokeSession store sid uid now).1.sessions,
      (s.id = sid ∧ s.user_id = uid →
        s.status = "revoked" ∧ s.revoked_at = some now) ∧
      (¬(s.id = sid ∧ s.user_id = uid) → s ∈ store.sessions)) := by
  intro store sid uid now
  constructor
  · simp only [SessionService.revokeSession, SessionService.sqlRowCount,
      decide_eq_true_eq, List.length_pos_iff_exists_mem]
    constructor
    · rintro ⟨s, hs⟩
      rw [List.mem_filter] at hs
      obtain ⟨hmem, hp⟩ := hs
      simp only [Bool.and_eq_true, beq_iff_eq] at hp
      exact ⟨s, hmem, hp.1, hp.2⟩
    · rintro ⟨s, hmem, h1, h2⟩
      exact ⟨s, List.mem_filter.mpr ⟨hmem, by simp [h1, h2]⟩⟩
  · intro s hs
    simp only [SessionService.revokeSession, SessionService.sqlUpdate] at hs
    rw [List.mem_map] at hs
    obtain ⟨t, ht, rfl⟩ := hs
    by_cases hp : (t.id == sid && t.user_id == uid) = true
    · rw [if_pos hp]
      simp only [Bool.and_eq_true, beq_iff_eq] at hp
      constructor
      · intro _
        exact ⟨rfl, rfl⟩
      · intro hcontra
        exact absurd ⟨hp.1, hp.2⟩ hcontra
    · rw [if_neg hp]
      constructor
      · intro hcontra
        exfalso
        exact hp (by simp [hcontra.1, hcontra.2])
      · intro _
        exact ht

/-- Witness for the amended C3 at a concrete store: the already-revoked session
is owned by u1, so revoking it reports true. -/
theorem claim_C3_amended_revoke_by_ownership_only_witness :
    (SessionService.revokeSession SessionService.revokedStore "s1" "u1" 50).2 = true :=
  (claim_C3_amended_revoke_by_ownership_only SessionService.revokedStore "s1" "u1" 50).1.mpr
    ⟨SessionService.revokedSession, by decide, rfl, rfl⟩

namespace SessionService

/-- Reading an updated table at an index where the old table holds a row yields
that row rewritten when it matches, untouched otherwise. -/
theorem getElem?_sqlUpdate (p : Session → Bool) (f : Session → Session)
    (l : List Session) (i : Nat) (old : Session) (h : l[i]? = some old) :
    (sqlUpdate p f l)[i]? = some (if p old then f old else old) := by
  simp [sqlUpdate, List.getElem?_map, h]

end SessionService

/-- C4 (counterexample): the claim makes `expired` terminal, but `revokeSession`
on the concrete store holding one expired session owned by u1 changes its
status to revoked. -/
theorem claim_C4_expired_not_terminal_counterexample :
    SessionService.expiredSession.status = "expired" ∧
    ((SessionService.revokeSession SessionService.expiredStore "s1" "u1" 700).1.sessions.map
      SessionService.Session.status) = ["revoked"] := by
  decide

/-- C4 (amended): over every single store operation, a revoked session stays
revoked, and the only status changes are active to expired (performed only by
cleanup, only past the expiry time), active to revoked (the revoke operations),
and expired to revoked (performed by revokeSession, which revokes matching
sessions regardless of their current status). Statuses are assumed to be among
the three the service ever writes. -/
theorem claim_C4_amended_status_transitions :
    ∀ (store : SessionService.Store) (op : SessionService.Op) (i : Nat)
      (old nxt : SessionService.Session),
    store.sessions[i]? = some old →
    ((SessionService.applyOp store op).sessions)[i]? = some nxt →
    old.status ∈ (["active", "expired", "revoked"] : List String) →
    (old.status = "revoked" → nxt.status = "revoked") ∧
    (nxt.status ≠ old.status →
      (old.status = "active" ∧ nxt.status = "expired" ∧
        ∃ n, op = SessionService.Op.cleanup n ∧ old.expires_at < n) ∨
      (old.status = "active" ∧ nxt.status = "revoked") ∨
      (old.status = "expired" ∧ nxt.status = "revoked" ∧
        ∃ sid uid n, op = SessionService.Op.revoke sid uid n)) := by
  intro store op i old nxt hold hnew hst
  simp only [List.mem_cons, List.not_mem_nil, or_false] at hst
  cases op with
  | create uid nid tok now ip ua di =>
      obtain ⟨hi, _⟩ := List.getElem?_eq_some_iff.mp hold
      simp only [SessionService.applyOp, SessionService.createSession] at hnew
      rw [List.getElem?_append_left hi, hold] at hnew
      obtain rfl : old = nxt := Option.some.inj hnew
      exact ⟨fun h => h, fun hne => absurd rfl hne⟩
  | revoke sid uid now =>
      simp only [SessionService.applyOp, SessionService.revokeSession] at hnew
      rw [SessionService.getElem?_sqlUpdate _ _ _ _ _ hold] at hnew
      have hx := Option.some.inj hnew
      subst hx
      split
      case isTrue hp =>
        refine ⟨fun _ => rfl, fun hne => ?_⟩
        rcases hst with h | h | h
        · exact Or.inr (Or.inl ⟨h, rfl⟩)
        · exact Or.inr (Or.inr ⟨h, rfl, sid, uid, now, rfl⟩)
        · exact absurd (show (SessionService.revokeMark now old).status = old.status by rw [h]; rfl) hne
      case isFalse hp =>
        exact ⟨fun h => h, fun hne => absurd rfl hne⟩
  | revokeAll uid ex now =>
      simp only [SessionService.applyOp, SessionService.revokeAllSessions] at hnew
      rw [SessionService.getElem?_sqlUpdate _ _ _ _ _ hold] at hnew
      have hx := Option.some.inj hnew
      subst hx
      split
      case isTrue hp =>
        have hact : old.status = "active" := by
          simp only [Bool.and_eq_true, beq_iff_eq] at hp
          exact hp.1.2
        refine ⟨fun h => absurd (hact.symm.trans h) (by decide), fun _ => ?_⟩
        exact Or.inr (Or.inl ⟨hact, rfl⟩)
      case isFalse hp =>
        exact ⟨fun h => h, fun hne => absurd rfl hne⟩
  | revokeByType uid dt now =>
      simp only [SessionService.applyOp, SessionService.revokeSessionsByType] at hnew
      rw [SessionService.getElem?_sqlUpdate _ _ _ _ _ hold] at hnew
      have hx := Option.some.inj hnew
      subst hx
      split
      case isTrue hp =>
        have hact : old.status = "active" := by
          simp only [Bool.and_eq_true, beq_iff_eq] at hp
          exact hp.2
        refine ⟨fun h => absurd (hact.symm.trans h) (by decide), fun _ => ?_⟩
        exact Or.inr (Or.inl ⟨hact, rfl⟩)
      case isFalse hp =>
        exact ⟨fun h => h, fun hne => absurd rfl hne⟩
  | cleanup now =>
      simp only [SessionService.applyOp, SessionService.cleanupExpiredSessions] at hnew
      rw [SessionService.getElem?_sqlUpdate _ _ _ _ _ hold] at hnew
      have hx := Option.some.inj hnew
      subst hx
      split
      case isTrue hp =>
        have hact : old.status = "active" := by
          simp only [Bool.and_eq_true, beq_iff_eq, decide_eq_true_eq] at hp
          exact hp.1
        have hexp : old.expires_at < now := by
          simp only [Bool.and_eq_true, beq_iff_eq, decide_eq_true_eq] at hp
          exact hp.2
        refine ⟨fun h => absurd (hact.symm.trans h) (by decide), fun _ => ?_⟩
        exact Or.inl ⟨hact, rfl, now, rfl, hexp⟩
      case isFalse hp =>
        exact ⟨fun h => h, fun hne => absurd rfl hne⟩
  | touch sid now =>
      simp only [SessionService.applyOp, SessionService.updateSessionActivity] at hnew
      rw [SessionService.getElem?_sqlUpdate _ _ _ _ _ hold] at hnew
      have hx := Option.some.inj hnew
      subst hx
      split
      case isTrue hp =>
        exact ⟨fun h => h, fun hne => absurd rfl hne⟩
      case isFalse hp =>
        exact ⟨fun h => h, fun hne => absurd rfl hne⟩

/-- Witness for the amended C4: applying it to the concrete revoked store and a
touch operation shows the revoked session keeps status revoked. -/
theorem claim_C4_amended_status_transitions_witness :
    SessionService.Session.status
      { SessionService.revokedSession with last_active_at := 99 } = "revoked" :=
  (claim_C4_amended_status_transitions SessionService.revokedStore
      (SessionService.Op.touch "s1" 99) 0 SessionService.revokedSession
      { SessionService.revokedSession with last_active_at := 99 }
      (by decide) (by decide) (by decide)).1 rfl

set_option maxRecDepth 8000 in
/-- C5 (counterexample): the claim requires the record returned by
`getSessionById` to carry the masked token (length 19 for a 128-character
token); on the concrete store holding one freshly created session, the returned
record carries the raw 128-character token, which differs from its mask. -/
theorem claim_C5_get_session_by_id_raw_token_counterexample :
    (SessionService.getSessionById SessionService.demoCreatedStore "s1" "u1").map
      (fun s => s.session_token) = some SessionService.demoToken ∧
    SessionService.demoToken.length = 128 ∧
    (SessionService.maskToken SessionService.demoToken).length = 19 ∧
    SessionService.maskToken SessionService.demoToken ≠ SessionService.demoToken := by
  decide

/-- C5 (amended): every element of the list returned by `getUserSessions`
carries the mask first8 ++ "..." ++ last8 of the token of some stored session —
a mask of length 19 when the stored token has the generated length 128 — but
`getSessionById` returns the stored record itself, raw token included. -/
theorem claim_C5_amended_masking :
    ∀ (store : SessionService.Store) (uid status : String) (page limit : Nat),
    (∀ r ∈ (SessionService.getUserSessions store uid status page limit).sessions,
      ∃ s ∈ store.sessions,
        r.session_token = SessionService.maskToken s.session_token) ∧
    (∀ t : String, t.length = 128 → (SessionService.maskToken t).length = 19) ∧
    (∀ (sid : String) (r : SessionService.Session),
      SessionService.getSessionById store sid uid = some r → r ∈ store.sessions) := by
  intro store uid status page limit
  refine ⟨?_, ?_, ?_⟩
  · intro r hr
    simp only [SessionService.getUserSessions] at hr
    rw [List.mem_map] at hr
    obtain ⟨s, hs, rfl⟩ := hr
    refine ⟨s, ?_, rfl⟩
    have hs1 := List.mem_of_mem_take hs
    have hs2 := List.mem_of_mem_drop hs1
    rw [List.mem_insertionSort] at hs2
    by_cases hall : (status == "all") = true
    · rw [if_pos hall] at hs2
      exact (List.mem_filter.mp hs2).1
    · rw [if_neg hall] at hs2
      exact (List.mem_filter.mp (List.mem_filter.mp hs2).1).1
  · intro t ht
    have hd : t.data.length = 128 := ht
    simp only [SessionService.maskToken, String.length_mk, List.length_append,
      List.length_take, List.length_drop, List.length_cons, List.length_nil, hd]
    omega
  · intro sid r hr
    simp only [SessionService.getSessionById] at hr
    have hmem : r ∈ store.sessions.filter
        (fun s => s.id == sid && s.user_id == uid) :=
      List.mem_of_mem_head? (by rw [Option.mem_def]; exact hr)
    exact (List.mem_filter.mp hmem).1

set_option maxRecDepth 8000 in
/-- Witness for the amended C5: the mask of the concrete 128-character demo
token has length 19, and the record getSessionById returns on the demo store is
a stored session. -/
theorem claim_C5_amended_masking_witness :
    (SessionService.maskToken SessionService.demoToken).length = 19 :=
  (claim_C5_amended_masking SessionService.demoCreatedStore "u1" "active" 1 20).2.1
    SessionService.demoToken (by decide)

namespace SessionService

/-- A filter whose predicate forces ownership by `uid` returns nothing on a
list containing no sessions of `uid`. -/
theorem filter_nil_of_no_owner (l : List Session) (uid : String) (q : Session → Bool)
    (hq : ∀ s, q s = true → s.user_id = uid) (h : ∀ s ∈ l, s.user_id ≠ uid) :
    l.filter q = [] := by
  rw [List.filter_eq_nil_iff]
  intro s hs hqs
  exact h s hs (hq s hqs)

end SessionService

/-- C8: `revokeAllSessions` transitions exactly the user's currently-active
sessions to revoked (optionally sparing the excluded session id), leaves every
other session untouched, returns 0 when the user has no active session, and on
a store with no sessions of the user the scenario holds: after `createSession`
the user's active-session count is 1, `revokeAllSessions` with no exclusion
reports 1 affected session, and the count afterwards is 0. -/
theorem claim_C8_revoke_all_transitions_and_count :
    ∀ (store : SessionService.Store) (uid : String) (excl : Option String) (now : Nat),
    (∀ (i : Nat) (old nxt : SessionService.Session),
      store.sessions[i]? = some old →
      ((SessionService.revokeAllSessions store uid excl now).1.sessions)[i]? = some nxt →
      (old.user_id = uid ∧ old.status = "active" ∧ (∀ e, excl = some e → old.id ≠ e) →
        nxt = { old with status := "revoked", revoked_at := some now }) ∧
      (¬(old.user_id = uid ∧ old.status = "active" ∧ (∀ e, excl = some e → old.id ≠ e)) →
        nxt = old)) ∧
    ((∀ s ∈ store.sessions, ¬(s.user_id = uid ∧ s.status = "active")) →
      (SessionService.revokeAllSessions store uid excl now).2 = 0) ∧
    ((∀ s ∈ store.sessions, s.user_id ≠ uid) →
      ∀ (nid tok : String) (ip ua di : Option String),
      SessionService.countActiveSessions
        (SessionService.createSession store uid nid tok now ip ua di).1 uid now = 1 ∧
      (SessionService.revokeAllSessions
        (SessionService.createSession store uid nid tok now ip ua di).1 uid none now).2 = 1 ∧
      SessionService.countActiveSessions
        (SessionService.revokeAllSessions
          (SessionService.createSession store uid nid tok now ip ua di).1 uid none now).1
        uid now = 0) := by
  intro store uid excl now
  refine ⟨?_, ?_, ?_⟩
  · intro i old nxt hold hnew
    simp only [SessionService.revokeAllSessions] at hnew
    rw [SessionService.getElem?_sqlUpdate _ _ _ _ _ hold] at hnew
    have hx := Option.some.inj hnew
    subst hx
    cases excl with
    | none =>
        split
        case isTrue hp =>
          simp only [Bool.and_eq_true, beq_iff_eq] at hp
          refine ⟨fun _ => rfl, fun hcon => ?_⟩
          exact absurd ⟨hp.1.1, hp.1.2, fun e he => by cases he⟩ hcon
        case isFalse hp =>
          refine ⟨fun hcon => ?_, fun _ => rfl⟩
          exfalso
          apply hp
          simp [hcon.1, hcon.2.1]
    | some e =>
        split
        case isTrue hp =>
          simp only [Bool.and_eq_true, beq_iff_eq, bne_iff_ne] at hp
          refine ⟨fun _ => rfl, fun hcon => ?_⟩
          refine absurd ⟨hp.1.1, hp.1.2, ?_⟩ hcon
          intro e2 he2
          cases he2
          exact hp.2
        case isFalse hp =>
          refine ⟨fun hcon => ?_, fun _ => rfl⟩
          exfalso
          apply hp
          have hne := hcon.2.2 e rfl
          simp [hcon.1, hcon.2.1, hne]
  · intro hnone
    simp only [SessionService.revokeAllSessions, SessionService.sqlRowCount]
    rw [List.length_eq_zero, List.filter_eq_nil_iff]
    intro s hs hps
    simp only [Bool.and_eq_true, beq_iff_eq] at hps
    exact hnone s hs ⟨hps.1.1, hps.1.2⟩
  · intro hfresh nid tok ip ua di
    refine ⟨?_, ?_, ?_⟩
    · simp only [SessionService.countActiveSessions, SessionService.createSession,
        List.filter_append]
      rw [SessionService.filter_nil_of_no_owner store.sessions uid _
        (by intro s hs; simp only [Bool.and_eq_true, beq_iff_eq] at hs; exact hs.1.1) hfresh]
      simp [SessionService.sessionLifetime]
    · simp only [SessionService.revokeAllSessions, SessionService.sqlRowCount,
        SessionService.createSession, List.filter_append]
      rw [SessionService.filter_nil_of_no_owner store.sessions uid _
        (by intro s hs; simp only [Bool.and_eq_true, beq_iff_eq] at hs; exact hs.1.1) hfresh]
      simp
    · simp only [SessionService.countActiveSessions, SessionService.revokeAllSessions,
        SessionService.createSession, SessionService.sqlUpdate]
      rw [List.length_eq_zero, List.filter_eq_nil_iff]
      intro t ht
      rw [List.mem_map] at ht
      obtain ⟨s, hs, rfl⟩ := ht
      rw [List.mem_append] at hs
      rcases hs with hs | hs
      · have huser := hfresh s hs
        have hcond : ¬((s.user_id == uid && s.status == "active" && true) = true) := by
          simp [huser]
        rw [if_neg hcond]
        simp [huser]
      · simp only [List.mem_singleton] at hs
        subst hs
        simp [SessionService.revokeMark]

/-- Witness for C8 at the empty store and concrete inputs: create one session
for u1, count 1 active, revoke all (1 affected), count 0 active. -/
theorem claim_C8_revoke_all_transitions_and_count_witness :
    SessionService.countActiveSessions
      (SessionService.createSession ⟨[], []⟩ "u1" "s1" "tok" 0 none none none).1 "u1" 0 = 1 ∧
    (SessionService.revokeAllSessions
      (SessionService.createSession ⟨[], []⟩ "u1" "s1" "tok" 0 none none none).1
      "u1" none 0).2 = 1 ∧
    SessionService.countActiveSessions
      (SessionService.revokeAllSessions
        (SessionService.createSession ⟨[], []⟩ "u1" "s1" "tok" 0 none none none).1
        "u1" none 0).1 "u1" 0 = 0 :=
  (claim_C8_revoke_all_transitions_and_count ⟨[], []⟩ "u1" none 0).2.2
    (by intro s hs; cases hs) "s1" "tok" none none none
